import Mathlib

/-!
Shallow embedding of the CodeaUniTech learning-management backend
(Django apps `users` and `courses`), together with proofs of the
behavioural properties claimed by its specification.

Conventions of the embedding:
* `CharField`/`TextField` columns are `String`; a Python `None`/`''`
  (both falsy) is modelled by `""`.
* Nullable `DateField` columns are `Option Fecha`.
* `DecimalField(10,2)` amounts are `Rat`.
* The relational store is an explicit `DB` record of row lists; a
  Django `save()` override is a pure function on the row; a view
  wrapped in `transaction.atomic` is a function `DB → … → DB × Except …`
  that returns the original `DB` on the error branch (rollback).
* Python `while` loops over the finite user table are modelled with
  fuel `(table.length + 1)`.
-/

namespace Codea

/-- Calendar date mirroring Python `datetime.date` (compared lexicographically). -/
structure Fecha where
  year : Int
  month : Nat
  day : Nat
deriving DecidableEq

/-- Python `date` comparison `a < b`: lexicographic on (year, month, day). -/
def Fecha.lt (a b : Fecha) : Bool :=
  a.year < b.year || (a.year == b.year && (a.month < b.month ||
    (a.month == b.month && a.day < b.day)))

/-- Python tuple comparison `(a1, a2) < (b1, b2)` on naturals. -/
def parLt (a b : Nat × Nat) : Bool :=
  a.1 < b.1 || (a.1 == b.1 && a.2 < b.2)

/-- Age computation used by `Usuario.save` and both birth-date validators:
`today.year - value.year - ((today.month, today.day) < (value.month, value.day))`. -/
def calcularEdad (today fecha : Fecha) : Int :=
  today.year - fecha.year -
    (if parLt (today.month, today.day) (fecha.month, fecha.day) then 1 else 0)

/-- Python `str.lower()` (ASCII, which is all the code relies on). -/
def toLowerStr (s : String) : String := String.mk (s.toList.map Char.toLower)

/-- Python `email.split('@')[0]`: everything before the first `@`. -/
def localPart (email : String) : String :=
  String.mk (email.toList.takeWhile fun c => c != '@')

/-- `re.sub(r'[^a-z0-9._]', '', s)`: keep lowercase letters, digits, dot, underscore. -/
def limpiarCaracteres (s : String) : String :=
  String.mk (s.toList.filter fun c =>
    ('a' ≤ c && c ≤ 'z') || ('0' ≤ c && c ≤ '9') || c == '.' || c == '_')

/-- The `while taken(unique): unique = base + str(counter); counter += 1` loop
shared by `Usuario.generar_usuario_unico` and `RegistroInicialSerializer.create`.
`fuel` bounds the iteration (the source loop terminates because the user table
is finite and each candidate string is fresh). -/
def buscarDisponible (ocupado : String → Bool) (base : String) :
    String → Nat → Nat → String
  | unique, _counter, 0 => unique
  | unique, counter, fuel + 1 =>
    if ocupado unique then
      buscarDisponible ocupado base (base ++ toString counter) (counter + 1) fuel
    else unique

/-! ## Entity layer: `apps/users/models.py` -/

/-- Row of the `usuarios` table (`Usuario(AbstractUser, TimeStampedModel)`).
Timestamps, media/social URL columns and the UUID are omitted: no claim
reads them. `usuario_unico`/`pais`/names use `""` for SQL `NULL`. -/
structure Usuario where
  id : Nat
  email : String
  username : String
  password : String
  first_name : String
  last_name : String
  fecha_nacimiento : Option Fecha
  edad : Option Int
  usuario_unico : String
  pais : String
  tipo_usuario : String
  perfil_completo : Bool
  activo : Bool
deriving DecidableEq

/-- `Usuario.verificar_perfil_completo`: sets `perfil_completo` to the Python
truthiness conjunction of the five mandatory fields. -/
def Usuario.verificar_perfil_completo (u : Usuario) : Usuario :=
  { u with perfil_completo :=
      u.first_name != "" && u.last_name != "" && u.fecha_nacimiento.isSome &&
      u.usuario_unico != "" && u.pais != "" }

/-- `Usuario.save` override: recompute `edad` when `fecha_nacimiento` is set,
then run `verificar_perfil_completo`, then persist. -/
def Usuario.save (today : Fecha) (u : Usuario) : Usuario :=
  let u' := match u.fecha_nacimiento with
    | some f => { u with edad := some (calcularEdad today f) }
    | none => u
  u'.verificar_perfil_completo

/-- Default base for `Usuario.generar_usuario_unico` when no argument is given:
`first.lower() + '.' + last.lower()` when both names are set, else the
lowercased local part of the email. -/
def Usuario.base_usuario_unico (u : Usuario) : String :=
  if u.first_name != "" && u.last_name != "" then
    toLowerStr u.first_name ++ "." ++ toLowerStr u.last_name
  else
    toLowerStr (localPart u.email)

/-- `Usuario.objects.filter(usuario_unico=s).exclude(id=self.id).exists()`. -/
def ocupadoPorOtro (usuarios : List Usuario) (selfId : Nat) (s : String) : Bool :=
  usuarios.any fun v => v.usuario_unico == s && v.id != selfId

/-- `Usuario.generar_usuario_unico(base_username=None)`: build the base handle,
strip disallowed characters, then search `base, base1, base2, …` for the first
handle no *other* user holds. -/
def Usuario.generar_usuario_unico (usuarios : List Usuario) (u : Usuario)
    (base_username : Option String) : String :=
  let base := limpiarCaracteres (base_username.getD u.base_usuario_unico)
  buscarDisponible (ocupadoPorOtro usuarios u.id) base base 1 (usuarios.length + 1)

/-- Row of the `docentes` table (`Docente(TimeStampedModel)`); optional columns
(título, certificaciones, github) omitted — no claim reads them.
`experiencia_anos` is a non-null `PositiveIntegerField`, hence `Nat`. -/
structure Docente where
  id : Nat
  usuario : Nat
  especialidad : String
  biografia_extendida : String
  experiencia_anos : Nat
deriving DecidableEq

/-! ## Entity layer: `apps/courses/models.py` -/

/-- Row of the `categorias` table. -/
structure Categoria where
  id : Nat
  nombre : String
  activa : Bool
deriving DecidableEq

/-- Row of the `cursos` table. Media URLs, modalidad/nivel, rating, UUID and
timestamps omitted — no claim reads them (lookups use `id` for the key). -/
structure Curso where
  id : Nat
  titulo : String
  descripcion : String
  descripcion_corta : String
  categoria : Nat
  docente_principal : Nat
  precio : Rat
  es_gratuito : Bool
  destacado : Bool
  activo : Bool
deriving DecidableEq

/-- `Curso.save` override: `if self.es_gratuito: self.precio = 0.00`. -/
def Curso.save (c : Curso) : Curso :=
  if c.es_gratuito then { c with precio := 0 } else c

/-- Row of the `modulos` table (timestamps, `expandible`, `duracion_minutos`
omitted — no claim reads them). `Meta` declares
`unique_together [['curso','orden']]`, but the nested-create path never
reaches it (see `insertModulo`). -/
structure Modulo where
  id : Nat
  curso : Nat
  titulo : String
  descripcion : String
  orden : Nat
  activo : Bool
deriving DecidableEq

/-- Row of the `lecciones` table (timestamps and `duracion_segundos`
omitted). `Meta` declares `unique_together [['modulo','orden']]`, but the
nested-create path never reaches it (see `insertLeccion`). -/
structure Leccion where
  id : Nat
  modulo : Nat
  titulo : String
  contenido : String
  tipo_contenido : String
  video_url : String
  duracion_minutos : Nat
  orden : Nat
  es_gratuita : Bool
  activa : Bool
deriving DecidableEq

/-- `Leccion.save` override:
`if self.tipo_contenido == 'video' and not self.video_url: self.tipo_contenido = 'texto'`. -/
def Leccion.save (l : Leccion) : Leccion :=
  if l.tipo_contenido == "video" && l.video_url == "" then
    { l with tipo_contenido := "texto" }
  else l

/-! ## The relational store -/

/-- The persisted state: one row list per table, plus the auto-increment
primary-key counters. -/
structure DB where
  usuarios : List Usuario
  docentes : List Docente
  categorias : List Categoria
  cursos : List Curso
  modulos : List Modulo
  lecciones : List Leccion
  nextUsuarioId : Nat
  nextCursoId : Nat
  nextModuloId : Nat
  nextLeccionId : Nat
deriving DecidableEq

def DB.findUsuario (db : DB) (i : Nat) : Option Usuario :=
  db.usuarios.find? (·.id == i)

def DB.findDocente (db : DB) (i : Nat) : Option Docente :=
  db.docentes.find? (·.id == i)

/-- `Docente.perfil_docente_completo`: own mandatory fields truthy
(`experiencia_anos is not None` always holds for the non-null column)
and the linked user's profile complete. -/
def Docente.perfil_docente_completo (db : DB) (d : Docente) : Bool :=
  d.especialidad != "" && d.biografia_extendida != "" &&
    ((db.findUsuario d.usuario).map (·.perfil_completo)).getD false

/-- `Curso.total_modulos`: `self.modulos.filter(activo=True).count()`. -/
def Curso.total_modulos (db : DB) (c : Curso) : Nat :=
  (db.modulos.filter fun m => m.curso == c.id && m.activo).length

/-- `Curso.total_lecciones`:
`sum(modulo.lecciones.filter(activa=True).count() for modulo in self.modulos.filter(activo=True))`. -/
def Curso.total_lecciones (db : DB) (c : Curso) : Nat :=
  ((db.modulos.filter fun m => m.curso == c.id && m.activo).map fun m =>
    (db.lecciones.filter fun l => l.modulo == m.id && l.activa).length).sum

/-! ## Composite-write coordinator: `apps/courses/views.py` and
`apps/courses/serializers.py` -/

/-- Nested lesson payload accepted by `LeccionSerializer` inside
`crear_completo` / `actualizar_completo`. -/
structure LeccionPayload where
  titulo : String
  contenido : String
  tipo_contenido : String
  video_url : String
  duracion_minutos : Nat
  orden : Nat
  es_gratuita : Bool
deriving DecidableEq

/-- Nested module payload (`ModuloSerializer` data plus its `lecciones` list). -/
structure ModuloPayload where
  titulo : String
  descripcion : String
  orden : Nat
  lecciones : List LeccionPayload
deriving DecidableEq

/-- Course payload accepted by `CursoCreateSerializer`. -/
structure CursoPayload where
  titulo : String
  descripcion : String
  descripcion_corta : String
  categoria : Nat
  docente_principal : Nat
  precio : Rat
  es_gratuito : Bool
  destacado : Bool
deriving DecidableEq

/-- `CursoCreateSerializer` validation: required char fields non-blank and
within `max_length`; `categoria` must reference an existing row; the
`docente_principal` queryset keeps only docentes whose user is active with a
complete profile, and `validate_docente_principal` re-checks those conditions
plus `perfil_docente_completo`. -/
def validarCursoPayload (db : DB) (p : CursoPayload) : Except String Unit :=
  if p.titulo == "" || 200 < p.titulo.length then
    .error "titulo"
  else if p.descripcion == "" then
    .error "descripcion"
  else if !(db.categorias.any fun k => k.id == p.categoria) then
    .error "categoria"
  else
    match db.findDocente p.docente_principal with
    | none => .error "docente_principal"
    | some d =>
      match db.findUsuario d.usuario with
      | none => .error "docente_principal"
      | some u =>
        if !(u.activo && u.perfil_completo) then
          .error "docente_principal"
        else if !u.activo then
          .error "El docente seleccionado no está activo"
        else if !u.perfil_completo then
          .error "El docente debe tener su perfil completo"
        else if !(d.perfil_docente_completo db) then
          .error "El docente debe tener su perfil profesional completo"
        else
          .ok ()

/-- `curso_serializer.save()`: build the row (fresh primary key, `activo`
defaulting to `True`) and run `Curso.save` (which zeroes the price of a
free course) before inserting. -/
def insertCurso (db : DB) (p : CursoPayload) : DB × Curso :=
  let c : Curso := Curso.save
    { id := db.nextCursoId, titulo := p.titulo, descripcion := p.descripcion,
      descripcion_corta := p.descripcion_corta, categoria := p.categoria,
      docente_principal := p.docente_principal, precio := p.precio,
      es_gratuito := p.es_gratuito, destacado := p.destacado, activo := true }
  ({ db with cursos := db.cursos ++ [c], nextCursoId := db.nextCursoId + 1 }, c)

/-- `ModuloSerializer` field validation for a nested module payload. -/
def validarModuloPayload (p : ModuloPayload) : Except String Unit :=
  if p.titulo == "" || 200 < p.titulo.length then .error "titulo de módulo"
  else .ok ()

/-- `modulo_serializer.save()`: `ModuloSerializer.Meta.fields` omits the
`curso` foreign key, so the course id stamped by the view
(`modulo_data['curso'] = curso.id`) is silently dropped by DRF validation
and never reaches `validated_data`. The resulting
`Modulo.objects.create(...)` issues an INSERT with `curso_id = NULL`
against the non-nullable column, which the database rejects with an
`IntegrityError` for every row; the `unique_together [['curso', 'orden']]`
constraint is never reached, and DRF skips its unique-together validator
because `curso` is not a serializer field. The stamped `cursoId` parameter
is kept to mirror the view's (ignored) stamping. -/
def insertModulo (_db : DB) (_cursoId : Nat) (_p : ModuloPayload) :
    Except String (DB × Modulo) :=
  .error "IntegrityError: NOT NULL constraint failed: modulos.curso_id"

/-- `LeccionSerializer` field validation: required char field and the
`tipo_contenido` choices. -/
def validarLeccionPayload (p : LeccionPayload) : Except String Unit :=
  if p.titulo == "" || 200 < p.titulo.length then .error "titulo de lección"
  else if !(["video", "texto", "quiz", "proyecto"].contains p.tipo_contenido) then
    .error "tipo_contenido"
  else .ok ()

/-- `leccion_serializer.save()`: `LeccionSerializer.Meta.fields` omits the
`modulo` foreign key, so the module id stamped by the view
(`leccion_data['modulo'] = modulo.id`) is dropped by DRF validation and
the INSERT carries `modulo_id = NULL`; the non-nullable column rejects
every row with an `IntegrityError` (the `Leccion.save` coercion and the
`unique_together [['modulo', 'orden']]` constraint are never reached).
The stamped `moduloId` parameter mirrors the view's (ignored) stamping. -/
def insertLeccion (_db : DB) (_moduloId : Nat) (_p : LeccionPayload) :
    Except String (DB × Leccion) :=
  .error "IntegrityError: NOT NULL constraint failed: lecciones.modulo_id"

/-- The `for leccion_data in lecciones_data` loop: validate and persist each
lesson of one module in order, propagating the first failure
(`is_valid(raise_exception=True)` aborts the whole request). -/
def crearLecciones (db : DB) (moduloId : Nat) :
    List LeccionPayload → Except String DB
  | [] => .ok db
  | p :: rest =>
    match validarLeccionPayload p with
    | .error e => .error e
    | .ok () =>
      match insertLeccion db moduloId p with
      | .error e => .error e
      | .ok (db', _) => crearLecciones db' moduloId rest

/-- The `for modulo_data in modulos_data` loop: validate and persist each
module (with its nested lessons) in order, propagating the first failure. -/
def crearModulos (db : DB) (cursoId : Nat) :
    List ModuloPayload → Except String DB
  | [] => .ok db
  | p :: rest =>
    match validarModuloPayload p with
    | .error e => .error e
    | .ok () =>
      match insertModulo db cursoId p with
      | .error e => .error e
      | .ok (db', m) =>
        match crearLecciones db' m.id p.lecciones with
        | .error e => .error e
        | .ok db'' => crearModulos db'' cursoId rest

/-- Request body of `POST /cursos/crear-completo/`: `none` models a missing
top-level key. -/
structure CrearCompletoRequest where
  curso : Option CursoPayload
  modulos : Option (List ModuloPayload)
deriving DecidableEq

/-- `CursoViewSet.crear_completo`: shape checks first, then — inside
`transaction.atomic` — create the course, then each module and its lessons.
Any raised validation error reaches the `except` handler after the
transaction rolled back, so the caller observes the original `db`. -/
def crear_completo (db : DB) (req : CrearCompletoRequest) :
    DB × Except String String :=
  match req.curso with
  | none => (db, .error "Falta información del curso")
  | some cursoData =>
    match req.modulos with
    | none => (db, .error "Debe incluir al menos un módulo")
    | some modulosData =>
      match validarCursoPayload db cursoData with
      | .error e => (db, .error ("Error creando curso completo: " ++ e))
      | .ok () =>
        let paso := insertCurso db cursoData
        match crearModulos paso.1 paso.2.id modulosData with
        | .error e => (db, .error ("Error creando curso completo: " ++ e))
        | .ok db2 =>
          (db2, .ok ("Curso \"" ++ paso.2.titulo ++ "\" creado exitosamente"))

/-- Partial course payload of `actualizar_completo` (`partial=True`): every
field optional. -/
structure CursoUpdatePayload where
  titulo : Option String
  descripcion : Option String
  descripcion_corta : Option String
  categoria : Option Nat
  docente_principal : Option Nat
  precio : Option Rat
  es_gratuito : Option Bool
  destacado : Option Bool
deriving DecidableEq

/-- `CursoCreateSerializer(curso, data=…, partial=True)` validation: only the
provided fields are validated, with the same per-field rules as on create. -/
def validarCursoUpdate (db : DB) (p : CursoUpdatePayload) : Except String Unit :=
  if (match p.titulo with
      | some t => t == "" || 200 < t.length
      | none => false) then .error "titulo"
  else if p.descripcion == some "" then .error "descripcion"
  else if (match p.categoria with
      | some k => !(db.categorias.any fun c => c.id == k)
      | none => false) then .error "categoria"
  else
    match p.docente_principal with
    | none => .ok ()
    | some i =>
      match db.findDocente i with
      | none => .error "docente_principal"
      | some d =>
        match db.findUsuario d.usuario with
        | none => .error "docente_principal"
        | some u =>
          if !(u.activo && u.perfil_completo) then .error "docente_principal"
          else if !(d.perfil_docente_completo db) then
            .error "El docente debe tener su perfil profesional completo"
          else .ok ()

/-- Apply the provided fields to the existing row, then `Curso.save`. -/
def aplicarCursoUpdate (c : Curso) (p : CursoUpdatePayload) : Curso :=
  Curso.save
    { c with
      titulo := p.titulo.getD c.titulo,
      descripcion := p.descripcion.getD c.descripcion,
      descripcion_corta := p.descripcion_corta.getD c.descripcion_corta,
      categoria := p.categoria.getD c.categoria,
      docente_principal := p.docente_principal.getD c.docente_principal,
      precio := p.precio.getD c.precio,
      es_gratuito := p.es_gratuito.getD c.es_gratuito,
      destacado := p.destacado.getD c.destacado }

/-- Request body of `PUT/PATCH /cursos/{uuid}/actualizar-completo/`. -/
structure ActualizarCompletoRequest where
  curso : Option CursoUpdatePayload
  modulos : Option (List ModuloPayload)
deriving DecidableEq

/-- The `if 'curso' in request.data` block of `actualizar_completo`:
optional partial update of the course row, returning the (possibly updated)
store and course. -/
def actualizarPaso1 (db : DB) (curso : Curso) :
    Option CursoUpdatePayload → Except String (DB × Curso)
  | none => .ok (db, curso)
  | some p =>
    match validarCursoUpdate db p with
    | .error e => .error e
    | .ok () =>
      .ok ({ db with cursos := db.cursos.map fun c =>
               if c.id == curso.id then aplicarCursoUpdate curso p else c },
           aplicarCursoUpdate curso p)

/-- The `if 'modulos' in request.data` block of `actualizar_completo`:
delete **all** of the course's modules (`curso.modulos.all().delete()`,
cascading to their lessons by FK) and recreate them from the payload. -/
def actualizarPaso2 (db1 : DB) (curso1 : Curso) :
    Option (List ModuloPayload) → Except String DB
  | none => .ok db1
  | some ps =>
    let borrados := db1.modulos.filter fun m => m.curso == curso1.id
    crearModulos
      { db1 with
        modulos := db1.modulos.filter fun m => !(m.curso == curso1.id),
        lecciones := db1.lecciones.filter fun l =>
          !(borrados.any fun m => m.id == l.modulo) }
      curso1.id ps

/-- `CursoViewSet.actualizar_completo`: look the course up in the
`activo=True` queryset, run the two optional blocks, everything inside one
transaction rolled back on any failure. -/
def actualizar_completo (db : DB) (cursoId : Nat)
    (req : ActualizarCompletoRequest) : DB × Except String String :=
  match db.cursos.find? fun c => c.id == cursoId && c.activo with
  | none => (db, .error "No encontrado")
  | some curso =>
    match actualizarPaso1 db curso req.curso with
    | .error e => (db, .error ("Error actualizando curso: " ++ e))
    | .ok par =>
      match actualizarPaso2 par.1 par.2 req.modulos with
      | .error e => (db, .error ("Error actualizando curso: " ++ e))
      | .ok db2 =>
        (db2, .ok ("Curso \"" ++ par.2.titulo ++ "\" actualizado exitosamente"))

/-! ## Profile state machine: `apps/users/serializers.py` and
`apps/users/views.py` -/

/-- `DocenteCreateSerializer.validate_fecha_nacimiento`: reject future dates,
then reject when the computed age is under 18. -/
def validate_fecha_nacimiento_docente (today value : Fecha) :
    Except String Fecha :=
  if Fecha.lt today value then
    .error "La fecha de nacimiento no puede ser en el futuro."
  else if calcularEdad today value < 18 then
    .error "Los docentes deben tener al menos 18 años."
  else .ok value

/-- `CompletarPerfilSerializer.validate_fecha_nacimiento`: reject future dates,
then reject when the computed age is under 13. -/
def validate_fecha_nacimiento_perfil (today value : Fecha) :
    Except String Fecha :=
  if Fecha.lt today value then
    .error "La fecha de nacimiento no puede ser en el futuro."
  else if calcularEdad today value < 13 then
    .error "Debes tener al menos 13 años para registrarte."
  else .ok value

/-- Request body of step-1 registration (`RegistroInicialSerializer` fields). -/
structure RegistroPayload where
  email : String
  password : String
  confirm_password : String
deriving DecidableEq

/-- `RegistroInicialSerializer.validate_email`: uniqueness against the stored
emails, then normalise to lowercase. -/
def validate_email_registro (usuarios : List Usuario) (email : String) :
    Except String String :=
  if usuarios.any fun u => u.email == email then
    .error "Este email ya está registrado."
  else .ok (toLowerStr email)

/-- `RegistroInicialSerializer.validate`: password confirmation, then the
pluggable strength policy (`django.contrib.auth.password_validation`,
an external collaborator modelled as the predicate `policyOk`). -/
def validarRegistro (policyOk : String → Bool) (password confirm : String) :
    Except String Unit :=
  if password != confirm then .error "Las contraseñas no coinciden."
  else if !(policyOk password) then .error "password"
  else .ok ()

/-- `RegistroInicialSerializer.create`: derive a username from the email's
local part, disambiguate it with an incrementing counter against existing
usernames, build the user with `perfil_completo=False` (every profile field
still blank, `usuario_unico` untouched), and `save()`. -/
def registroCreate (today : Fecha) (db : DB) (email password : String) :
    DB × Usuario :=
  let base := toLowerStr (localPart email)
  let ocupado := fun s => db.usuarios.any fun u => u.username == s
  let username := buscarDisponible ocupado base base 1 (db.usuarios.length + 1)
  let u : Usuario := Usuario.save today
    { id := db.nextUsuarioId, email := email, username := username,
      password := password, first_name := "", last_name := "",
      fecha_nacimiento := none, edad := none, usuario_unico := "",
      pais := "", tipo_usuario := "estudiante", perfil_completo := false,
      activo := true }
  ({ db with usuarios := db.usuarios ++ [u],
             nextUsuarioId := db.nextUsuarioId + 1 }, u)

/-- `RegistroInicialView.create` (`POST /registro-inicial/`): field validation
(email uniqueness + lowercasing, password `min_length=8`), cross-field
validation, then `serializer.save()`. -/
def registro_inicial (policyOk : String → Bool) (today : Fecha) (db : DB)
    (p : RegistroPayload) : DB × Except String Usuario :=
  match validate_email_registro db.usuarios p.email with
  | .error e => (db, .error e)
  | .ok email' =>
    if p.password.length < 8 then (db, .error "min_length")
    else
      match validarRegistro policyOk p.password p.confirm_password with
      | .error e => (db, .error e)
      | .ok () =>
        let (db', u) := registroCreate today db email' p.password
        (db', .ok u)

/-- Request body of profile completion (`CompletarPerfilSerializer` writable
fields; optional media/social fields omitted — no claim reads them). A `none`
models an absent key, which DRF only tolerates under `partial=True`. -/
structure PerfilPayload where
  first_name : Option String
  last_name : Option String
  fecha_nacimiento : Option Fecha
  usuario_unico : Option String
  pais : Option String
deriving DecidableEq

/-- `usuario_unico` format check: `re.match(r'^[a-zA-Z0-9._]+$', value)`. -/
def formatoUsuarioUnico (s : String) : Bool :=
  s != "" && s.toList.all fun c =>
    ('a' ≤ c && c ≤ 'z') || ('A' ≤ c && c ≤ 'Z') || ('0' ≤ c && c ≤ '9') ||
      c == '.' || c == '_'

/-- `CompletarPerfilSerializer.validate_usuario_unico`: uniqueness excluding
the instance's own row, then the format check, then lowercase. -/
def validate_usuario_unico (usuarios : List Usuario) (selfId : Nat)
    (value : String) : Except String String :=
  if usuarios.any fun v => v.usuario_unico == value && v.id != selfId then
    .error "Este nombre de usuario ya está en uso."
  else if !(formatoUsuarioUnico value) then
    .error "El nombre de usuario solo puede contener letras, números, puntos y guiones bajos."
  else .ok (toLowerStr value)

/-- `CompletarPerfilSerializer.is_valid()`: required-field presence (only
enforced when not partial), the per-field validators, then `validate`, which
rejects whenever the instance's profile is already complete — for partial and
non-partial updates alike. Returns the validated payload (handle lowercased). -/
def completarPerfilIsValid (today : Fecha) (usuarios : List Usuario)
    (inst : Usuario) (esParcial : Bool) (p : PerfilPayload) :
    Except String PerfilPayload :=
  if !esParcial && (p.first_name.isNone || p.last_name.isNone ||
      p.fecha_nacimiento.isNone || p.usuario_unico.isNone || p.pais.isNone) then
    .error "Este campo es requerido."
  else do
    let unico' ← match p.usuario_unico with
      | none => pure none
      | some s => do
        let s' ← validate_usuario_unico usuarios inst.id s
        pure (some s')
    let _ ← match p.fecha_nacimiento with
      | none => pure ()
      | some f => do
        let _ ← validate_fecha_nacimiento_perfil today f
        pure ()
    if inst.perfil_completo then
      .error "El perfil ya está completo."
    else
      pure { p with usuario_unico := unico' }

/-- `CompletarPerfilSerializer.update`: `setattr` each provided field, then
`instance.save()` (recomputing `edad` and `perfil_completo`). -/
def aplicarPerfil (today : Fecha) (inst : Usuario) (p : PerfilPayload) :
    Usuario :=
  Usuario.save today
    { inst with
      first_name := p.first_name.getD inst.first_name,
      last_name := p.last_name.getD inst.last_name,
      fecha_nacimiento := (p.fecha_nacimiento.map some).getD inst.fecha_nacimiento,
      usuario_unico := p.usuario_unico.getD inst.usuario_unico,
      pais := p.pais.getD inst.pais }

/-- `CompletarPerfilView.update` (`PUT`/`PATCH /completar-perfil/`): the view
rejects a non-partial update on an already-complete profile, then runs the
serializer (whose own `validate` also rejects complete profiles) and saves. -/
def completar_perfil (today : Fecha) (db : DB) (inst : Usuario)
    (esParcial : Bool) (p : PerfilPayload) : DB × Except String Usuario :=
  if !esParcial && inst.perfil_completo then
    (db, .error "El perfil ya está completo. Usa PATCH para actualizaciones parciales.")
  else
    match completarPerfilIsValid today db.usuarios inst esParcial p with
    | .error e => (db, .error e)
    | .ok p' =>
      let u' := aplicarPerfil today inst p'
      ({ db with usuarios :=
          db.usuarios.map fun v => if v.id == inst.id then u' else v }, .ok u')

/-! ## Generic helpers for the proofs -/

/-- Whether an operation succeeded (no exception raised). -/
def esOk {α : Type} : Except String α → Bool
  | .ok _ => true
  | .error _ => false

theorem esOk_error {α : Type} (e : String) : esOk (α := α) (.error e) = false := rfl

theorem esOk_ok {α : Type} (a : α) : esOk (.ok a) = true := rfl

/-! ## C3 — `perfil_completo` recomputed on every save -/

/-- C3: after every `Usuario.save`, `perfil_completo` equals the conjunction
"first_name, last_name, fecha_nacimiento, usuario_unico and pais are all
non-empty"; the recomputation is unconditional, so it flips the flag in both
directions. -/
theorem perfil_completo_recalculado_en_save (today : Fecha) (u : Usuario) :
    (u.save today).perfil_completo =
      (u.first_name != "" && u.last_name != "" && u.fecha_nacimiento.isSome &&
       u.usuario_unico != "" && u.pais != "") := by
  cases h : u.fecha_nacimiento <;>
    simp [Usuario.save, Usuario.verificar_perfil_completo, h]

/-! ## C7 — video lessons need a video URL -/

/-- C7: `Leccion.save` coerces a video lesson without `video_url` to `texto`;
consequently every persisted lesson of type `video` has a non-empty
`video_url`, and the coercion is idempotent. -/
theorem leccion_video_coercion (l : Leccion) :
    (l.tipo_contenido = "video" → l.video_url = "" →
      (Leccion.save l).tipo_contenido = "texto") ∧
    ((Leccion.save l).tipo_contenido = "video" →
      (Leccion.save l).video_url ≠ "") ∧
    Leccion.save (Leccion.save l) = Leccion.save l := by
  refine ⟨fun h1 h2 => ?_, fun h1 => ?_, ?_⟩
  · simp [Leccion.save, h1, h2]
  · by_cases hc : (l.tipo_contenido == "video" && l.video_url == "") = true
    · simp [Leccion.save, hc] at h1
    · simp [Leccion.save, hc] at h1 ⊢
      simp only [Bool.and_eq_true, beq_iff_eq] at hc
      intro h2
      exact hc ⟨h1, h2⟩
  · by_cases hc : (l.tipo_contenido == "video" && l.video_url == "") = true
    · simp [Leccion.save, hc]
    · simp [Leccion.save, hc]

/-- Witness for C7 at concrete lessons: a video lesson without URL becomes
`texto`; a video lesson with a URL keeps a non-empty URL. -/
theorem leccion_video_coercion_witness :
    (Leccion.save
      { id := 1, modulo := 1, titulo := "Intro", contenido := "",
        tipo_contenido := "video", video_url := "", duracion_minutos := 10,
        orden := 1, es_gratuita := true, activa := true }).tipo_contenido
      = "texto" ∧
    (Leccion.save
      { id := 2, modulo := 1, titulo := "Props", contenido := "",
        tipo_contenido := "video", video_url := "https://v.mp4",
        duracion_minutos := 10, orden := 2, es_gratuita := false,
        activa := true }).video_url ≠ "" := by
  constructor
  · exact (leccion_video_coercion _).1 rfl rfl
  · exact (leccion_video_coercion _).2.1 rfl

/-! ## C8 — free courses are stored with price zero -/

/-- C8: `Curso.save` forces `precio := 0.00` whenever `es_gratuito` is set,
regardless of the supplied price, so every persisted free course has price
exactly zero. -/
theorem curso_gratuito_precio_cero (c : Curso) (h : c.es_gratuito = true) :
    (Curso.save c).precio = 0 ∧ (Curso.save c).es_gratuito = true := by
  simp [Curso.save, h]

/-- Witness for C8: a free course submitted with price 199.99 is stored with
price 0. -/
theorem curso_gratuito_precio_cero_witness :
    (Curso.save
      { id := 1, titulo := "T", descripcion := "D", descripcion_corta := "",
        categoria := 1, docente_principal := 1, precio := (19999 : Rat) / 100,
        es_gratuito := true, destacado := false, activo := true }).precio = 0 :=
  (curso_gratuito_precio_cero _ rfl).1

/-! ## C9 — birth-date eligibility -/

/-- C9: the instructor birth-date validator rejects any computed age of 17
or less and accepts age exactly 18; the profile-completion validator rejects
age 12 or less and accepts age exactly 13; both reject future dates. -/
theorem validadores_fecha_nacimiento (today v : Fecha) :
    (calcularEdad today v ≤ 17 →
      esOk (validate_fecha_nacimiento_docente today v) = false) ∧
    (Fecha.lt today v = false → calcularEdad today v = 18 →
      validate_fecha_nacimiento_docente today v = .ok v) ∧
    (calcularEdad today v ≤ 12 →
      esOk (validate_fecha_nacimiento_perfil today v) = false) ∧
    (Fecha.lt today v = false → calcularEdad today v = 13 →
      validate_fecha_nacimiento_perfil today v = .ok v) ∧
    (Fecha.lt today v = true →
      esOk (validate_fecha_nacimiento_docente today v) = false ∧
      esOk (validate_fecha_nacimiento_perfil today v) = false) := by
  refine ⟨fun h => ?_, fun hf h => ?_, fun h => ?_, fun hf h => ?_,
    fun hf => ⟨?_, ?_⟩⟩
  · by_cases hf : Fecha.lt today v = true
    · simp [validate_fecha_nacimiento_docente, hf, esOk]
    · have h18 : calcularEdad today v < 18 := by omega
      simp [validate_fecha_nacimiento_docente, hf, h18, esOk]
  · have h18 : ¬ calcularEdad today v < 18 := by omega
    simp [validate_fecha_nacimiento_docente, hf, h18]
  · by_cases hf : Fecha.lt today v = true
    · simp [validate_fecha_nacimiento_perfil, hf, esOk]
    · have h13 : calcularEdad today v < 13 := by omega
      simp [validate_fecha_nacimiento_perfil, hf, h13, esOk]
  · have h13 : ¬ calcularEdad today v < 13 := by omega
    simp [validate_fecha_nacimiento_perfil, hf, h13]
  · simp [validate_fecha_nacimiento_docente, hf, esOk]
  · simp [validate_fecha_nacimiento_perfil, hf, esOk]

/-- Witness for C9 on 2026-10-12: born 2009-01-01 (age 17) is rejected and
born 2008-01-01 (age 18) accepted as instructor; born 2014-01-01 (age 12)
is rejected and born 2013-01-01 (age 13) accepted for profile completion;
a 2027 birth date is rejected by both. -/
theorem validadores_fecha_nacimiento_witness :
    esOk (validate_fecha_nacimiento_docente ⟨2026, 10, 12⟩ ⟨2009, 1, 1⟩) = false ∧
    validate_fecha_nacimiento_docente ⟨2026, 10, 12⟩ ⟨2008, 1, 1⟩ =
      .ok ⟨2008, 1, 1⟩ ∧
    esOk (validate_fecha_nacimiento_perfil ⟨2026, 10, 12⟩ ⟨2014, 1, 1⟩) = false ∧
    validate_fecha_nacimiento_perfil ⟨2026, 10, 12⟩ ⟨2013, 1, 1⟩ =
      .ok ⟨2013, 1, 1⟩ ∧
    esOk (validate_fecha_nacimiento_docente ⟨2026, 10, 12⟩ ⟨2027, 1, 1⟩) = false := by
  refine ⟨?_, ?_, ?_, ?_, ?_⟩
  · exact (validadores_fecha_nacimiento _ _).1 (by decide)
  · exact (validadores_fecha_nacimiento _ _).2.1 (by decide) (by decide)
  · exact (validadores_fecha_nacimiento _ _).2.2.1 (by decide)
  · exact (validadores_fecha_nacimiento _ _).2.2.2.1 (by decide) (by decide)
  · exact ((validadores_fecha_nacimiento _ _).2.2.2.2 (by decide)).1

/-! ## C6 — unique-handle generation -/

theorem buscarDisponible_libre (oc : String → Bool) (base uniq : String)
    (ctr fuel : Nat) (h : oc uniq = false) :
    buscarDisponible oc base uniq ctr (fuel + 1) = uniq := by
  simp [buscarDisponible, h]

/-- The search loop returns the first free candidate: if the current
candidate and the next `m` numbered candidates are all taken but candidate
`ctr + m` is free (and there is enough fuel), it returns `base ++ (ctr + m)`. -/
theorem buscarDisponible_encuentra (oc : String → Bool) (base : String) :
    ∀ (m ctr fuel : Nat) (uniq : String),
      oc uniq = true →
      (∀ j, ctr ≤ j → j < ctr + m → oc (base ++ toString j) = true) →
      oc (base ++ toString (ctr + m)) = false →
      m < fuel →
      buscarDisponible oc base uniq ctr fuel = base ++ toString (ctr + m) := by
  intro m
  induction m with
  | zero =>
    intro ctr fuel uniq h1 _ h3 hf
    obtain ⟨f, rfl⟩ : ∃ f, fuel = f + 1 := ⟨fuel - 1, by omega⟩
    rw [Nat.add_zero] at h3 ⊢
    cases f with
    | zero => simp [buscarDisponible, h1]
    | succ f' => simp [buscarDisponible, h1, h3]
  | succ m ih =>
    intro ctr fuel uniq h1 h2 h3 hf
    obtain ⟨f, rfl⟩ : ∃ f, fuel = f + 1 := ⟨fuel - 1, by omega⟩
    have paso : buscarDisponible oc base uniq ctr (f + 1) =
        buscarDisponible oc base (base ++ toString ctr) (ctr + 1) f := by
      simp [buscarDisponible, h1]
    rw [paso]
    have hsum : ctr + 1 + m = ctr + (m + 1) := by omega
    have := ih (ctr + 1) f (base ++ toString ctr)
      (h2 ctr (Nat.le_refl ctr) (by omega))
      (fun j hj1 hj2 => h2 j (by omega) (by omega))
      (by rw [hsum]; exact h3) (by omega)
    rw [this, hsum]

/-- C6: `generar_usuario_unico` returns the cleaned base handle when no other
user holds it; otherwise it appends the smallest counter `k ≥ 1` whose
candidate no other user holds; in particular for first name "Ana", last name
"Gomez" while another user holds "ana.gomez", it returns "ana.gomez1". -/
theorem generar_usuario_unico_spec :
    (∀ (usuarios : List Usuario) (u : Usuario),
      ocupadoPorOtro usuarios u.id (limpiarCaracteres u.base_usuario_unico) = false →
      Usuario.generar_usuario_unico usuarios u none =
        limpiarCaracteres u.base_usuario_unico) ∧
    (∀ (usuarios : List Usuario) (u : Usuario) (k : Nat),
      1 ≤ k → k ≤ usuarios.length →
      ocupadoPorOtro usuarios u.id (limpiarCaracteres u.base_usuario_unico) = true →
      (∀ j, 1 ≤ j → j < k →
        ocupadoPorOtro usuarios u.id
          (limpiarCaracteres u.base_usuario_unico ++ toString j) = true) →
      ocupadoPorOtro usuarios u.id
        (limpiarCaracteres u.base_usuario_unico ++ toString k) = false →
      Usuario.generar_usuario_unico usuarios u none =
        limpiarCaracteres u.base_usuario_unico ++ toString k) ∧
    Usuario.generar_usuario_unico
      [{ id := 1, email := "maria@example.com", username := "maria",
         password := "x", first_name := "Maria", last_name := "Lopez",
         fecha_nacimiento := none, edad := none, usuario_unico := "ana.gomez",
         pais := "Peru", tipo_usuario := "estudiante", perfil_completo := true,
         activo := true }]
      { id := 2, email := "ana@example.com", username := "ana",
        password := "x", first_name := "Ana", last_name := "Gomez",
        fecha_nacimiento := none, edad := none, usuario_unico := "",
        pais := "", tipo_usuario := "estudiante", perfil_completo := false,
        activo := true } none = "ana.gomez1" := by
  refine ⟨fun usuarios u h => ?_, fun usuarios u k hk1 hk2 h1 h2 h3 => ?_, ?_⟩
  · unfold Usuario.generar_usuario_unico
    simp only [Option.getD_none]
    exact buscarDisponible_libre _ _ _ _ _ h
  · unfold Usuario.generar_usuario_unico
    simp only [Option.getD_none]
    have hsum : 1 + (k - 1) = k := by omega
    have := buscarDisponible_encuentra
      (ocupadoPorOtro usuarios u.id) (limpiarCaracteres u.base_usuario_unico)
      (k - 1) 1 (usuarios.length + 1) (limpiarCaracteres u.base_usuario_unico)
      h1 (fun j hj1 hj2 => h2 j hj1 (by omega)) (by rw [hsum]; exact h3)
      (by omega)
    rw [this, hsum]
  · decide

/-- Witness for C6: the "ana.gomez" collision resolved through the general
least-counter part of the theorem (counter `k = 1`). -/
theorem generar_usuario_unico_spec_witness :
    Usuario.generar_usuario_unico
      [{ id := 1, email := "maria@example.com", username := "maria",
         password := "x", first_name := "Maria", last_name := "Lopez",
         fecha_nacimiento := none, edad := none, usuario_unico := "ana.gomez",
         pais := "Peru", tipo_usuario := "estudiante", perfil_completo := true,
         activo := true }]
      { id := 2, email := "ana@example.com", username := "ana",
        password := "x", first_name := "Ana", last_name := "Gomez",
        fecha_nacimiento := none, edad := none, usuario_unico := "",
        pais := "", tipo_usuario := "estudiante", perfil_completo := false,
        activo := true } none =
      limpiarCaracteres (Usuario.base_usuario_unico
        { id := 2, email := "ana@example.com", username := "ana",
          password := "x", first_name := "Ana", last_name := "Gomez",
          fecha_nacimiento := none, edad := none, usuario_unico := "",
          pais := "", tipo_usuario := "estudiante", perfil_completo := false,
          activo := true }) ++ toString 1 := by
  exact generar_usuario_unico_spec.2.1 _ _ 1 (by decide) (by decide) (by decide)
    (fun j hj1 hj2 => absurd (Nat.lt_of_le_of_lt hj1 hj2) (by decide))
    (by decide)

/-! ## C10 — derived counters count only active children -/

theorem any_filter_bool {α : Type} (p q : α → Bool) :
    ∀ l : List α, (l.filter p).any q = l.any fun a => p a && q a := by
  intro l
  induction l with
  | nil => rfl
  | cons a l ih => by_cases h : p a <;> simp [h, ih]

/-- Splitting a filtered count over a fresh module id: lessons matching id
`i` and lessons matching one of `ids` are disjoint classes when `i ∉ ids`. -/
theorem conteo_separa (i : Nat) (ids : List Nat) (h : ∀ j ∈ ids, j ≠ i) :
    ∀ L : List Leccion,
      (L.filter fun l => l.modulo == i && l.activa).length +
        (L.filter fun l => l.activa && ids.any fun j => j == l.modulo).length
        = (L.filter fun l =>
            l.activa && (i == l.modulo || ids.any fun j => j == l.modulo)).length := by
  intro L
  induction L with
  | nil => rfl
  | cons l L ih =>
    simp only [← List.countP_eq_length_filter] at ih ⊢
    simp only [List.countP_cons]
    by_cases ha : l.activa = true
    · by_cases hm : l.modulo = i
      · have hany : (ids.any fun j => j == l.modulo) = false := by
          cases hx : ids.any fun j => j == l.modulo
          · rfl
          · obtain ⟨j, hj, hjeq⟩ := List.any_eq_true.mp hx
            have : j = l.modulo := by simpa using hjeq
            exact absurd (this.trans hm) (h j hj)
        have hc1 : (l.modulo == i && l.activa) = true := by simp [hm, ha]
        have hc2 : (l.activa && ids.any fun j => j == l.modulo) = false := by
          simp [hany]
        have hc3 : (l.activa &&
            (i == l.modulo || ids.any fun j => j == l.modulo)) = true := by
          simp [ha, hm]
        simp only [hc1, hc2, hc3]
        have ht : (if True then 1 else 0) = 1 := if_pos trivial
        have hf : (if false = true then 1 else 0) = 0 := if_neg Bool.false_ne_true
        rw [ht, hf]
        omega
      · have hc1 : (l.modulo == i && l.activa) = false := by simp [hm]
        have hmi : (i == l.modulo) = false := by
          simp only [beq_eq_false_iff_ne, ne_eq]
          exact fun hh => hm hh.symm
        have hc3 : (l.activa &&
            (i == l.modulo || ids.any fun j => j == l.modulo))
            = (l.activa && ids.any fun j => j == l.modulo) := by
          rw [hmi, Bool.false_or]
        simp only [hc1, hc3]
        have hf : (if false = true then 1 else 0) = 0 := if_neg Bool.false_ne_true
        rw [hf]
        omega
    · have ha' : l.activa = false := by simpa using ha
      have hc1 : (l.modulo == i && l.activa) = false := by simp [ha']
      have hc2 : (l.activa && ids.any fun j => j == l.modulo) = false := by
        simp [ha']
      have hc3 : (l.activa &&
          (i == l.modulo || ids.any fun j => j == l.modulo)) = false := by
        simp [ha']
      simp only [hc1, hc2, hc3]
      have hf : (if false = true then 1 else 0) = 0 := if_neg Bool.false_ne_true
      rw [hf]
      omega

/-- Counting lessons module-by-module over pairwise-distinct module ids
equals one globally filtered count. -/
theorem conteo_por_ids (L : List Leccion) :
    ∀ ids : List Nat, ids.Nodup →
      ((ids.map fun i =>
        (L.filter fun l => l.modulo == i && l.activa).length).sum)
        = (L.filter fun l => l.activa && ids.any fun i => i == l.modulo).length := by
  intro ids hnd
  induction ids with
  | nil => simp
  | cons i ids ih =>
    have hni : i ∉ ids := (List.nodup_cons.mp hnd).1
    have hrest := ih (List.nodup_cons.mp hnd).2
    have hsplit := conteo_separa i ids
      (fun j hj hji => hni (hji ▸ hj)) L
    simp only [List.map_cons, List.sum_cons, List.any_cons]
    rw [hrest, hsplit]

/-- C10: `total_modulos` counts exactly the course's modules with
`activo = True`, and `total_lecciones` counts exactly the lessons with
`activa = True` whose module is an active module of the course — inactive
modules and lessons are excluded, though still persisted. -/
theorem contadores_cuentan_solo_activos (db : DB) (c : Curso)
    (h : (db.modulos.map Modulo.id).Nodup) :
    Curso.total_modulos db c =
      (db.modulos.filter fun m => m.curso == c.id && m.activo).length ∧
    Curso.total_lecciones db c =
      (db.lecciones.filter fun l => l.activa &&
        db.modulos.any fun m => m.curso == c.id && m.activo && m.id == l.modulo).length := by
  refine ⟨rfl, ?_⟩
  have hnd : ((db.modulos.filter fun m => m.curso == c.id && m.activo).map
      Modulo.id).Nodup :=
    h.sublist ((List.filter_sublist _).map _)
  have hmain := conteo_por_ids db.lecciones
    ((db.modulos.filter fun m => m.curso == c.id && m.activo).map Modulo.id) hnd
  have hl : Curso.total_lecciones db c =
      (((db.modulos.filter fun m => m.curso == c.id && m.activo).map
        Modulo.id).map fun i =>
          (db.lecciones.filter fun l => l.modulo == i && l.activa).length).sum := by
    rw [List.map_map]
    rfl
  rw [hl, hmain]
  have hpred : (fun l : Leccion => l.activa &&
        ((db.modulos.filter fun m => m.curso == c.id && m.activo).map
          Modulo.id).any fun i => i == l.modulo)
      = fun l : Leccion => l.activa &&
          db.modulos.any fun m => m.curso == c.id && m.activo && m.id == l.modulo := by
    funext l
    have hids : ∀ ms : List Modulo,
        ((ms.filter fun m => m.curso == c.id && m.activo).map Modulo.id).any
          (fun i => i == l.modulo)
          = ms.any fun m => m.curso == c.id && m.activo && m.id == l.modulo := by
      intro ms
      induction ms with
      | nil => rfl
      | cons m ms ih =>
        by_cases hm : (m.curso == c.id && m.activo) = true
        · obtain ⟨hcc, hact⟩ := Bool.and_eq_true_iff.mp hm
          simp [List.filter_cons, hcc, hact, ih]
        · have hm' : (m.curso == c.id && m.activo) = false := by simpa using hm
          cases hcc : m.curso == c.id with
          | false => simp [List.filter_cons, hcc, ih]
          | true =>
            have hact : m.activo = false := by simpa [hcc] using hm'
            simp [List.filter_cons, hcc, hact, ih]
    rw [hids]
  rw [hpred]

/-- Witness for C10: a course with one active module (one active and one
inactive lesson), one inactive module (with an active lesson) and one module
of another course. -/
theorem contadores_cuentan_solo_activos_witness :
    Curso.total_modulos
      { usuarios := [], docentes := [], categorias := [],
        cursos := [], modulos :=
          [{ id := 1, curso := 1, titulo := "A", descripcion := "",
             orden := 1, activo := true },
           { id := 2, curso := 1, titulo := "B", descripcion := "",
             orden := 2, activo := false },
           { id := 3, curso := 2, titulo := "C", descripcion := "",
             orden := 1, activo := true }],
        lecciones :=
          [{ id := 1, modulo := 1, titulo := "L1", contenido := "",
             tipo_contenido := "texto", video_url := "", duracion_minutos := 5,
             orden := 1, es_gratuita := false, activa := true },
           { id := 2, modulo := 1, titulo := "L2", contenido := "",
             tipo_contenido := "texto", video_url := "", duracion_minutos := 5,
             orden := 2, es_gratuita := false, activa := false },
           { id := 3, modulo := 2, titulo := "L3", contenido := "",
             tipo_contenido := "texto", video_url := "", duracion_minutos := 5,
             orden := 1, es_gratuita := false, activa := true }],
        nextUsuarioId := 1, nextCursoId := 3, nextModuloId := 4,
        nextLeccionId := 4 }
      { id := 1, titulo := "T", descripcion := "D", descripcion_corta := "",
        categoria := 1, docente_principal := 1, precio := 0,
        es_gratuito := true, destacado := false, activo := true } = 1 ∧
    Curso.total_lecciones
      { usuarios := [], docentes := [], categorias := [],
        cursos := [], modulos :=
          [{ id := 1, curso := 1, titulo := "A", descripcion := "",
             orden := 1, activo := true },
           { id := 2, curso := 1, titulo := "B", descripcion := "",
             orden := 2, activo := false },
           { id := 3, curso := 2, titulo := "C", descripcion := "",
             orden := 1, activo := true }],
        lecciones :=
          [{ id := 1, modulo := 1, titulo := "L1", contenido := "",
             tipo_contenido := "texto", video_url := "", duracion_minutos := 5,
             orden := 1, es_gratuita := false, activa := true },
           { id := 2, modulo := 1, titulo := "L2", contenido := "",
             tipo_contenido := "texto", video_url := "", duracion_minutos := 5,
             orden := 2, es_gratuita := false, activa := false },
           { id := 3, modulo := 2, titulo := "L3", contenido := "",
             tipo_contenido := "texto", video_url := "", duracion_minutos := 5,
             orden := 1, es_gratuita := false, activa := true }],
        nextUsuarioId := 1, nextCursoId := 3, nextModuloId := 4,
        nextLeccionId := 4 }
      { id := 1, titulo := "T", descripcion := "D", descripcion_corta := "",
        categoria := 1, docente_principal := 1, precio := 0,
        es_gratuito := true, destacado := false, activo := true } = 1 := by
  have h := contadores_cuentan_solo_activos
    { usuarios := [], docentes := [], categorias := [],
      cursos := [], modulos :=
        [{ id := 1, curso := 1, titulo := "A", descripcion := "",
           orden := 1, activo := true },
         { id := 2, curso := 1, titulo := "B", descripcion := "",
           orden := 2, activo := false },
         { id := 3, curso := 2, titulo := "C", descripcion := "",
           orden := 1, activo := true }],
      lecciones :=
        [{ id := 1, modulo := 1, titulo := "L1", contenido := "",
           tipo_contenido := "texto", video_url := "", duracion_minutos := 5,
           orden := 1, es_gratuita := false, activa := true },
         { id := 2, modulo := 1, titulo := "L2", contenido := "",
           tipo_contenido := "texto", video_url := "", duracion_minutos := 5,
           orden := 2, es_gratuita := false, activa := false },
         { id := 3, modulo := 2, titulo := "L3", contenido := "",
           tipo_contenido := "texto", video_url := "", duracion_minutos := 5,
           orden := 1, es_gratuita := false, activa := true }],
      nextUsuarioId := 1, nextCursoId := 3, nextModuloId := 4,
      nextLeccionId := 4 }
    { id := 1, titulo := "T", descripcion := "D", descripcion_corta := "",
      categoria := 1, docente_principal := 1, precio := 0,
      es_gratuito := true, destacado := false, activo := true } (by decide)
  exact ⟨h.1.trans (by decide), h.2.trans (by decide)⟩

/-! ## C4 — step-1 registration -/

/-- The empty store. -/
def dbVacia : DB :=
  { usuarios := [], docentes := [], categorias := [], cursos := [],
    modulos := [], lecciones := [], nextUsuarioId := 1, nextCursoId := 1,
    nextModuloId := 1, nextLeccionId := 1 }

/-- Counterexample to C4: step-1 registration with the fresh email
"Ana@Example.com" and valid matching passwords succeeds, but the created
user's `usuario_unico` is empty (`NULL`) — it is *not* the handle "ana"
derived from the email's local part; only the internal `username` receives
that derived value. -/
theorem registro_usuario_unico_no_derivado :
    ((registro_inicial (fun _ => true) ⟨2026, 10, 12⟩ dbVacia
        { email := "Ana@Example.com", password := "S3guro.pass",
          confirm_password := "S3guro.pass" }).2.map
      Usuario.usuario_unico) = .ok "" ∧
    toLowerStr (localPart "Ana@Example.com") = "ana" ∧
    ("" : String) ≠ "ana" := by
  refine ⟨rfl, rfl, by decide⟩

/-- C4 (amended): step-1 registration with a fresh email and matching,
policy-passing passwords creates a user with `perfil_completo = false` whose
**username** is derived from the email's local part and disambiguated by an
incrementing counter against existing usernames; `usuario_unico` is left
unset (empty). -/
theorem registro_inicial_crea_usuario (policyOk : String → Bool)
    (today : Fecha) (db : DB) (p : RegistroPayload)
    (hemail : (db.usuarios.any fun u => u.email == p.email) = false)
    (hlen : 8 ≤ p.password.length)
    (hmatch : p.password = p.confirm_password)
    (hpol : policyOk p.password = true) :
    ∃ u db2, registro_inicial policyOk today db p = (db2, .ok u) ∧
      u.perfil_completo = false ∧
      u.usuario_unico = "" ∧
      u.username =
        buscarDisponible (fun s => db.usuarios.any fun v => v.username == s)
          (toLowerStr (localPart (toLowerStr p.email)))
          (toLowerStr (localPart (toLowerStr p.email))) 1
          (db.usuarios.length + 1) ∧
      db2.usuarios = db.usuarios ++ [u] := by
  have h1 : validate_email_registro db.usuarios p.email =
      .ok (toLowerStr p.email) := by
    unfold validate_email_registro
    rw [hemail]
    exact if_neg Bool.false_ne_true
  have h3 : validarRegistro policyOk p.password p.confirm_password = .ok () := by
    simp [validarRegistro, ← hmatch, hpol]
  refine ⟨(registroCreate today db (toLowerStr p.email) p.password).2,
    (registroCreate today db (toLowerStr p.email) p.password).1, ?_, rfl, rfl,
    rfl, rfl⟩
  simp only [registro_inicial, h1, h3]
  rw [if_neg (by omega : ¬ p.password.length < 8)]

/-- Witness for C4's amended theorem at a concrete fresh email. -/
theorem registro_inicial_crea_usuario_witness :
    ∃ u db2, registro_inicial (fun _ => true) ⟨2026, 10, 12⟩ dbVacia
        { email := "Ana@Example.com", password := "S3guro.pass",
          confirm_password := "S3guro.pass" } = (db2, .ok u) ∧
      u.perfil_completo = false ∧
      u.usuario_unico = "" ∧
      u.username =
        buscarDisponible
          (fun s => dbVacia.usuarios.any fun v => v.username == s)
          (toLowerStr (localPart (toLowerStr "Ana@Example.com")))
          (toLowerStr (localPart (toLowerStr "Ana@Example.com"))) 1
          (dbVacia.usuarios.length + 1) ∧
      db2.usuarios = dbVacia.usuarios ++ [u] :=
  registro_inicial_crea_usuario (fun _ => true) ⟨2026, 10, 12⟩ dbVacia
    { email := "Ana@Example.com", password := "S3guro.pass",
      confirm_password := "S3guro.pass" } (by decide) (by decide) rfl rfl

/-! ## C5 — profile completion on an already-complete profile -/

/-- A user whose profile is already complete. -/
def usuariaCompleta : Usuario :=
  { id := 7, email := "carla@example.com", username := "carla",
    password := "x", first_name := "Carla", last_name := "Diaz",
    fecha_nacimiento := some ⟨1990, 5, 5⟩, edad := some 36,
    usuario_unico := "carla.diaz", pais := "Peru",
    tipo_usuario := "estudiante", perfil_completo := true, activo := true }

/-- C5 evidence: on a user whose profile is already complete, a **partial**
update (PATCH) carrying only `pais` is rejected by
`CompletarPerfilSerializer.validate` with "El perfil ya está completo.",
even though the view's own full-update error message directs the client to
use PATCH in exactly this situation (and the spec says partial updates are
accepted at any state). The full update is likewise rejected. -/
theorem completar_perfil_parcial_rechazado :
    completar_perfil ⟨2026, 10, 12⟩
      { usuarios := [usuariaCompleta], docentes := [], categorias := [],
        cursos := [], modulos := [], lecciones := [], nextUsuarioId := 8,
        nextCursoId := 1, nextModuloId := 1, nextLeccionId := 1 }
      usuariaCompleta true
      { first_name := none, last_name := none, fecha_nacimiento := none,
        usuario_unico := none, pais := some "Chile" }
      = ({ usuarios := [usuariaCompleta], docentes := [], categorias := [],
           cursos := [], modulos := [], lecciones := [], nextUsuarioId := 8,
           nextCursoId := 1, nextModuloId := 1, nextLeccionId := 1 },
         .error "El perfil ya está completo.") ∧
    completar_perfil ⟨2026, 10, 12⟩
      { usuarios := [usuariaCompleta], docentes := [], categorias := [],
        cursos := [], modulos := [], lecciones := [], nextUsuarioId := 8,
        nextCursoId := 1, nextModuloId := 1, nextLeccionId := 1 }
      usuariaCompleta false
      { first_name := some "Carla", last_name := some "Diaz",
        fecha_nacimiento := some ⟨1990, 5, 5⟩,
        usuario_unico := some "carla.diaz", pais := some "Chile" }
      = ({ usuarios := [usuariaCompleta], docentes := [], categorias := [],
           cursos := [], modulos := [], lecciones := [], nextUsuarioId := 8,
           nextCursoId := 1, nextModuloId := 1, nextLeccionId := 1 },
         .error
           "El perfil ya está completo. Usa PATCH para actualizaciones parciales.") := by
  exact ⟨rfl, rfl⟩

/-! ## C1 — the nested-create loop never completes a module insert -/

theorem crearModulos_cons_errV (db : DB) (cid : Nat) (q : ModuloPayload)
    (rest : List ModuloPayload) (e : String)
    (hv : validarModuloPayload q = .error e) :
    crearModulos db cid (q :: rest) = .error e := by
  simp only [crearModulos]
  rw [hv]

theorem crearModulos_cons_errI (db : DB) (cid : Nat) (q : ModuloPayload)
    (rest : List ModuloPayload) (e : String)
    (hv : validarModuloPayload q = .ok ())
    (hins : insertModulo db cid q = .error e) :
    crearModulos db cid (q :: rest) = .error e := by
  simp only [crearModulos]
  rw [hv, hins]

/-- The `for modulo_data in modulos_data` loop always raises on a non-empty
payload: either `ModuloSerializer.is_valid` rejects the head, or its
`save()` raises the `IntegrityError` on the NULL `curso` foreign key. -/
theorem crearModulos_cons_error (db : DB) (cid : Nat) (q : ModuloPayload)
    (rest : List ModuloPayload) :
    ∃ e, crearModulos db cid (q :: rest) = .error e := by
  cases hv : validarModuloPayload q with
  | error e => exact ⟨e, crearModulos_cons_errV db cid q rest e hv⟩
  | ok u =>
    cases u
    exact ⟨_, crearModulos_cons_errI db cid q rest _ hv rfl⟩

theorem crear_completo_ecuacion (db : DB) (cursoData : CursoPayload)
    (ms : List ModuloPayload) :
    crear_completo db ⟨some cursoData, some ms⟩ =
      (match validarCursoPayload db cursoData with
       | .error e => (db, .error ("Error creando curso completo: " ++ e))
       | .ok () =>
         match crearModulos (insertCurso db cursoData).1
             (insertCurso db cursoData).2.id ms with
         | .error e => (db, .error ("Error creando curso completo: " ++ e))
         | .ok db2 =>
           (db2, .ok ("Curso \"" ++ (insertCurso db cursoData).2.titulo ++
             "\" creado exitosamente"))) := rfl

/-- C1: `crear_completo` is all-or-nothing. Whenever it answers with an
error the store is exactly as before the call — no course, module or lesson
row written earlier in the call survives (`transaction.atomic` rollback).
Any request whose course payload validates but which carries at least one
module always answers with an error and leaves the store untouched: the
first nested `modulo_serializer.save()` already raises an `IntegrityError`
because `ModuloSerializer` has no `curso` field (see `insertModulo`). In
particular this holds for the claim's example, a module list that repeats
an `orden` value. -/
theorem crear_completo_atomico :
    (∀ (db : DB) (req : CrearCompletoRequest) (e : String),
      (crear_completo db req).2 = .error e → (crear_completo db req).1 = db) ∧
    (∀ (db : DB) (cursoData : CursoPayload) (p : ModuloPayload)
       (ms : List ModuloPayload),
      validarCursoPayload db cursoData = .ok () →
      (crear_completo db ⟨some cursoData, some (p :: ms)⟩).1 = db ∧
      ∃ e, (crear_completo db ⟨some cursoData, some (p :: ms)⟩).2
        = .error e) ∧
    (∀ (db : DB) (cursoData : CursoPayload) (ms : List ModuloPayload),
      validarCursoPayload db cursoData = .ok () →
      ¬ (ms.map ModuloPayload.orden).Nodup →
      (crear_completo db ⟨some cursoData, some ms⟩).1 = db ∧
      ∃ e, (crear_completo db ⟨some cursoData, some ms⟩).2 = .error e) := by
  have parte1 : ∀ (db : DB) (req : CrearCompletoRequest) (e : String),
      (crear_completo db req).2 = .error e → (crear_completo db req).1 = db := by
    intro db req e h
    obtain ⟨co, mo⟩ := req
    cases co with
    | none => rfl
    | some cursoData =>
      cases mo with
      | none => rfl
      | some ms =>
        rw [crear_completo_ecuacion] at h ⊢
        cases hval : validarCursoPayload db cursoData with
        | error e' => rfl
        | ok u =>
          cases u
          rw [hval] at h
          cases hcm : crearModulos (insertCurso db cursoData).1
              (insertCurso db cursoData).2.id ms with
          | error e2 => rfl
          | ok db2 =>
            rw [hcm] at h
            exact Except.noConfusion h
  have parte2 : ∀ (db : DB) (cursoData : CursoPayload) (p : ModuloPayload)
      (ms : List ModuloPayload),
      validarCursoPayload db cursoData = .ok () →
      (crear_completo db ⟨some cursoData, some (p :: ms)⟩).1 = db ∧
      ∃ e, (crear_completo db ⟨some cursoData, some (p :: ms)⟩).2
        = .error e := by
    intro db cursoData p ms hval
    rw [crear_completo_ecuacion, hval]
    obtain ⟨e, he⟩ := crearModulos_cons_error (insertCurso db cursoData).1
      (insertCurso db cursoData).2.id p ms
    rw [he]
    exact ⟨rfl, _, rfl⟩
  refine ⟨parte1, parte2, ?_⟩
  intro db cursoData ms hval hdup
  cases ms with
  | nil => simp at hdup
  | cons p rest => exact parte2 db cursoData p rest hval

/-- A store holding one category and one eligible instructor (active user
with complete profile and complete instructor profile). -/
def dbConDocente : DB :=
  { usuarios :=
      [{ id := 10, email := "doc@example.com", username := "doc",
         password := "x", first_name := "Juan", last_name := "Perez",
         fecha_nacimiento := some ⟨1980, 1, 1⟩, edad := some 46,
         usuario_unico := "juan.perez", pais := "Peru",
         tipo_usuario := "docente", perfil_completo := true, activo := true }],
    docentes :=
      [{ id := 5, usuario := 10, especialidad := "Backend",
         biografia_extendida := "Bio", experiencia_anos := 10 }],
    categorias := [{ id := 1, nombre := "Programacion", activa := true }],
    cursos := [], modulos := [], lecciones := [],
    nextUsuarioId := 11, nextCursoId := 1, nextModuloId := 1,
    nextLeccionId := 1 }

/-- A valid course payload against `dbConDocente`. -/
def cursoPayloadValido : CursoPayload :=
  { titulo := "Curso X", descripcion := "Descripcion",
    descripcion_corta := "", categoria := 1, docente_principal := 5,
    precio := 0, es_gratuito := true, destacado := false }

/-- Witness for C1: a valid course with two modules both using `orden = 1`
is rejected and the store is exactly the one before the call. -/
theorem crear_completo_atomico_witness :
    (crear_completo dbConDocente
      ⟨some cursoPayloadValido,
       some [{ titulo := "M1", descripcion := "", orden := 1, lecciones := [] },
             { titulo := "M2", descripcion := "", orden := 1,
               lecciones := [] }]⟩).1 = dbConDocente ∧
    ∃ e, (crear_completo dbConDocente
      ⟨some cursoPayloadValido,
       some [{ titulo := "M1", descripcion := "", orden := 1, lecciones := [] },
             { titulo := "M2", descripcion := "", orden := 1,
               lecciones := [] }]⟩).2 = .error e :=
  crear_completo_atomico.2.2 dbConDocente cursoPayloadValido
    [{ titulo := "M1", descripcion := "", orden := 1, lecciones := [] },
     { titulo := "M2", descripcion := "", orden := 1, lecciones := [] }]
    rfl (by decide)

/-! ## C2 — full-course replace -/

theorem actualizarPaso1_some_ok (db : DB) (curso : Curso)
    (p : CursoUpdatePayload) (hval : validarCursoUpdate db p = .ok ()) :
    actualizarPaso1 db curso (some p) =
      .ok ({ db with cursos := db.cursos.map fun c =>
               if c.id == curso.id then aplicarCursoUpdate curso p else c },
           aplicarCursoUpdate curso p) := by
  unfold actualizarPaso1
  dsimp only
  rw [hval]

theorem actualizarPaso1_some_err (db : DB) (curso : Curso)
    (p : CursoUpdatePayload) (e : String)
    (hval : validarCursoUpdate db p = .error e) :
    actualizarPaso1 db curso (some p) = .error e := by
  unfold actualizarPaso1
  dsimp only
  rw [hval]

theorem actualizarPaso2_some (db1 : DB) (curso1 : Curso)
    (ps : List ModuloPayload) :
    actualizarPaso2 db1 curso1 (some ps) =
      crearModulos
        { db1 with
          modulos := db1.modulos.filter fun m => !(m.curso == curso1.id),
          lecciones := db1.lecciones.filter fun l =>
            !((db1.modulos.filter fun m => m.curso == curso1.id).any
              fun m => m.id == l.modulo) }
        curso1.id ps := rfl

/-- A store holding one active course with two modules and their lessons. -/
def dbConCurso : DB :=
  { usuarios := [], docentes := [], categorias := [],
    cursos :=
      [{ id := 1, titulo := "T", descripcion := "D", descripcion_corta := "",
         categoria := 1, docente_principal := 5, precio := 0,
         es_gratuito := true, destacado := false, activo := true }],
    modulos :=
      [{ id := 1, curso := 1, titulo := "Viejo1", descripcion := "",
         orden := 1, activo := true },
       { id := 2, curso := 1, titulo := "Viejo2", descripcion := "",
         orden := 2, activo := true }],
    lecciones :=
      [{ id := 1, modulo := 1, titulo := "VL1", contenido := "",
         tipo_contenido := "texto", video_url := "", duracion_minutos := 5,
         orden := 1, es_gratuita := false, activa := true },
       { id := 2, modulo := 2, titulo := "VL2", contenido := "",
         tipo_contenido := "texto", video_url := "", duracion_minutos := 5,
         orden := 1, es_gratuita := false, activa := true }],
    nextUsuarioId := 1, nextCursoId := 2, nextModuloId := 3,
    nextLeccionId := 3 }

/-- The replacement payload used by the C2 witness: one module, one lesson. -/
def payloadNuevo : ModuloPayload :=
  { titulo := "Nuevo", descripcion := "", orden := 1,
    lecciones :=
      [{ titulo := "NL1", contenido := "", tipo_contenido := "texto",
         video_url := "", duracion_minutos := 5, orden := 1,
         es_gratuita := false }] }

/-- C2 evidence: the destructive replacement `actualizar_completo`
advertises never happens. At the failing input — the existing 2-module
course of `dbConCurso` and a request replacing it with the 1-module
`payloadNuevo` — the call answers 400: the modules are deleted
in-transaction, but the first recreated module's `save()` raises an
`IntegrityError` (the `curso` id stamped by the view is dropped because
`ModuloSerializer` has no `curso` field), the transaction rolls back, and
both original modules (with their lessons) survive, instead of the claim's
"exactly the modules and lessons of the new payload". In general no
successful run exists for any request whose `modulos` list is non-empty.
The claim's other half is faithful to the code: a request without a
`modulos` key leaves the module and lesson tables untouched. -/
theorem actualizar_completo_reemplazo_falla :
    actualizar_completo dbConCurso 1 ⟨none, some [payloadNuevo]⟩ =
      (dbConCurso, .error ("Error actualizando curso: " ++
        "IntegrityError: NOT NULL constraint failed: modulos.curso_id")) ∧
    ((actualizar_completo dbConCurso 1
        ⟨none, some [payloadNuevo]⟩).1.modulos.map
      fun m => (m.titulo, m.orden)) = [("Viejo1", 1), ("Viejo2", 2)] ∧
    (∀ (db : DB) (cursoId : Nat) (req : ActualizarCompletoRequest)
       (p : ModuloPayload) (ms : List ModuloPayload) (db' : DB)
       (msg : String),
      req.modulos = some (p :: ms) →
      actualizar_completo db cursoId req ≠ (db', .ok msg)) ∧
    (∀ (db : DB) (cursoId : Nat) (req : ActualizarCompletoRequest)
       (db' : DB) (msg : String),
      req.modulos = none →
      actualizar_completo db cursoId req = (db', .ok msg) →
      db'.modulos = db.modulos ∧ db'.lecciones = db.lecciones) := by
  refine ⟨rfl, rfl, ?_, ?_⟩
  · intro db cursoId req p ms db' msg hrm heq
    unfold actualizar_completo at heq
    split at heq
    · exact absurd (congrArg Prod.snd heq) (by simp)
    · rename_i curso hfind
      split at heq
      · exact absurd (congrArg Prod.snd heq) (by simp)
      · rename_i par hpaso1
        split at heq
        · exact absurd (congrArg Prod.snd heq) (by simp)
        · rename_i db2 hpaso2
          rw [hrm] at hpaso2
          rw [actualizarPaso2_some] at hpaso2
          obtain ⟨e, he⟩ := crearModulos_cons_error _ par.2.id p ms
          rw [he] at hpaso2
          exact Except.noConfusion hpaso2
  · intro db cursoId req db' msg hrm hrun
    unfold actualizar_completo at hrun
    split at hrun
    · exact absurd (congrArg Prod.snd hrun) (by simp)
    · rename_i curso hfind
      split at hrun
      · exact absurd (congrArg Prod.snd hrun) (by simp)
      · rename_i par hpaso1
        split at hrun
        · exact absurd (congrArg Prod.snd hrun) (by simp)
        · rename_i db2 hpaso2
          have hdb : db2 = db' := congrArg Prod.fst hrun
          subst hdb
          have hpar : par.1.modulos = db.modulos ∧
              par.1.lecciones = db.lecciones := by
            cases hrc : req.curso with
            | none =>
              rw [hrc] at hpaso1
              unfold actualizarPaso1 at hpaso1
              injection hpaso1 with h
              subst h
              exact ⟨rfl, rfl⟩
            | some p =>
              rw [hrc] at hpaso1
              cases hval : validarCursoUpdate db p with
              | error e =>
                rw [actualizarPaso1_some_err db curso p e hval] at hpaso1
                exact Except.noConfusion hpaso1
              | ok u =>
                cases u
                rw [actualizarPaso1_some_ok db curso p hval] at hpaso1
                injection hpaso1 with h
                subst h
                exact ⟨rfl, rfl⟩
          rw [hrm] at hpaso2
          unfold actualizarPaso2 at hpaso2
          injection hpaso2 with h
          exact ⟨by rw [← h]; exact hpar.1, by rw [← h]; exact hpar.2⟩

/-- Witness for C2's theorem: the replacement request on `dbConCurso` is
never answered with success, while a request without a `modulos` key
succeeds and leaves the module table unchanged. -/
theorem actualizar_completo_reemplazo_falla_witness :
    actualizar_completo dbConCurso 1 ⟨none, some [payloadNuevo]⟩ ≠
      (dbConCurso, .ok "Curso \"T\" actualizado exitosamente") ∧
    (actualizar_completo dbConCurso 1 ⟨none, none⟩).1.modulos
      = dbConCurso.modulos := by
  constructor
  · exact actualizar_completo_reemplazo_falla.2.2.1 dbConCurso 1
      ⟨none, some [payloadNuevo]⟩ payloadNuevo [] dbConCurso
      "Curso \"T\" actualizado exitosamente" rfl
  · exact (actualizar_completo_reemplazo_falla.2.2.2 dbConCurso 1
      ⟨none, none⟩ ((actualizar_completo dbConCurso 1 ⟨none, none⟩).1)
      "Curso \"T\" actualizado exitosamente" rfl rfl).1

end Codea
